import Mathlib

/-
Verification of the Result library (src/mod.ts): a tagged union of a
success variant carrying a payload and a failure variant carrying an
error, with instance combinators and a namespace of free utility
functions over arrays of Results.

Modelling conventions:
- The JavaScript object produced by the constructors is modelled as the
  inductive type Res with constructors Res.ok and Res.err; the
  discriminant field (success true or false) is exactly the constructor
  tag, and the always-null slot of each variant is elided.
- A JavaScript throw is modelled by Except String (the message of the
  thrown Error) for unwrap and expect, and by Except epsilon with an
  arbitrary type epsilon of thrown values for tryCatch and tryAsync.
- JSON.stringify is host behaviour outside this repository; it is
  modelled as an arbitrary rendering function passed explicitly to
  unwrap and expect.
- A settled promise is modelled by its outcome: Except.ok for a
  fulfilled value, Except.error for a rejection reason.
- Callbacks that may themselves throw are modelled by Except valued
  functions; the methods under that semantics carry a T suffix
  (Res.mapT and friends) and propagate the callback throw exactly as
  the JavaScript method body does.
-/

/-- Result value: a tagged union of the success variant (constructor ok,
from the source function ok, holding the data field) and the failure
variant (constructor err, from the source function err, holding the
error field). -/
inductive Res (T E : Type) where
  | ok (data : T)
  | err (error : E)
deriving DecidableEq, Repr

namespace Res

variable {T E U F : Type}

/-- Instance method isOk: the ok variant returns true, the err variant
returns false. -/
def isOk : Res T E → Bool
  | .ok _ => true
  | .err _ => false

/-- Instance method isErr: the ok variant returns false, the err variant
returns true. -/
def isErr : Res T E → Bool
  | .ok _ => false
  | .err _ => true

/-- Instance method map: on ok it returns ok of the callback applied to
the data; on err it returns this, the same failure value. -/
def map (r : Res T E) (fn : T → U) : Res U E :=
  match r with
  | .ok data => .ok (fn data)
  | .err error => .err error

/-- Instance method mapErr: on ok it returns this, the same success
value; on err it returns err of the callback applied to the error. -/
def mapErr (r : Res T E) (fn : E → F) : Res T F :=
  match r with
  | .ok data => .ok data
  | .err error => .err (fn error)

/-- Instance method andThen: on ok it returns the callback applied to
the data directly; on err it returns this, the same failure value. -/
def andThen (r : Res T E) (fn : T → Res U E) : Res U E :=
  match r with
  | .ok data => fn data
  | .err error => .err error

/-- Instance method unwrapOr: on ok it returns the data, ignoring the
default; on err it returns the default value. -/
def unwrapOr (r : Res T E) (defaultValue : T) : T :=
  match r with
  | .ok data => data
  | .err _ => defaultValue

/-- Instance method unwrap: on ok it returns the data; on err it throws
an Error whose message is the fixed literal followed by the
JSON.stringify rendering of the error. The rendering function stands
for JSON.stringify. -/
def unwrap (stringify : E → String) : Res T E → Except String T
  | .ok data => .ok data
  | .err error => .error ("Called unwrap on an Err value: " ++ stringify error)

/-- Instance method expect: on ok it returns the data, ignoring the
message; on err it throws an Error whose message is the supplied
message, a colon and a space, then the JSON.stringify rendering of the
error. -/
def expect (stringify : E → String) (r : Res T E) (message : String) :
    Except String T :=
  match r with
  | .ok data => .ok data
  | .err error => .error (message ++ ": " ++ stringify error)

/-- Instance method map under the may-throw callback semantics: the
callback returns Except, and when it throws on the ok branch the throw
propagates out of the method, exactly as in the JavaScript body
returning ok of the callback result; the err branch returns this
without calling the callback, so it never throws. -/
def mapT (r : Res T E) (fn : T → Except String U) : Except String (Res U E) :=
  match r with
  | .ok data => (fn data).map Res.ok
  | .err error => .ok (.err error)

/-- Instance method mapErr under the may-throw callback semantics. -/
def mapErrT (r : Res T E) (fn : E → Except String F) :
    Except String (Res T F) :=
  match r with
  | .ok data => .ok (.ok data)
  | .err error => (fn error).map Res.err

/-- Instance method andThen under the may-throw callback semantics. -/
def andThenT (r : Res T E) (fn : T → Except String (Res U E)) :
    Except String (Res U E) :=
  match r with
  | .ok data => fn data
  | .err error => .ok (.err error)

end Res

namespace Result

variable {T E U F ε : Type}

/-- Free function Result.try (spelled tryCatch here because try is a
reserved word in Lean): invokes the thunk; when it returns normally the
return value is wrapped with ok, when it throws the caught value is
wrapped with err; the result type is Res, not Except, so no throw
propagates past this boundary. -/
def tryCatch (fn : Unit → Except ε T) : Res T ε :=
  match fn () with
  | .ok v => .ok v
  | .error e => .err e

/-- Free function Result.tryAsync: invokes the thunk inside try; a
synchronous throw is caught and wrapped with err, otherwise the
returned promise is awaited, a fulfilled value is wrapped with ok and a
rejection reason is caught and wrapped with err. The thunk yields
Except epsilon of a settled promise outcome; the result is the promise
of the async function, Except.ok meaning it fulfills. -/
def tryAsync (fn : Unit → Except ε (Except ε T)) : Except ε (Res T ε) :=
  match fn () with
  | .error e => .ok (.err e)
  | .ok (.ok v) => .ok (.ok v)
  | .ok (.error e) => .ok (.err e)

/-- Free function Result.map: when the result is ok, return ok of the
callback applied to its data; otherwise return the result itself. -/
def map (result : Res T E) (fn : T → U) : Res U E :=
  match result with
  | .ok data => .ok (fn data)
  | .err error => .err error

/-- Free function Result.mapErr: when the result is err, return err of
the callback applied to its error; otherwise return the result
itself. -/
def mapErr (result : Res T E) (fn : E → F) : Res T F :=
  match result with
  | .ok data => .ok data
  | .err error => .err (fn error)

/-- Free function Result.andThen: when the result is ok, return the
callback applied to its data; otherwise return the result itself. -/
def andThen (result : Res T E) (fn : T → Res U E) : Res U E :=
  match result with
  | .ok data => fn data
  | .err error => .err error

/-- Free function Result.unwrapOr: when the result is ok, return its
data; otherwise return the default value. -/
def unwrapOr (result : Res T E) (defaultValue : T) : T :=
  match result with
  | .ok data => data
  | .err _ => defaultValue

/-- Loop body of Result.all: the values accumulator collects the data
of each ok element by pushing at the end; the first err element is
returned as is, ending the loop. -/
def allGo (values : List T) : List (Res T E) → Res (List T) E
  | [] => .ok values
  | result :: rest =>
    match result with
    | .err error => .err error
    | .ok data => allGo (values ++ [data]) rest

/-- Free function Result.all: iterates the array with an initially
empty values accumulator; returns the first err encountered, else ok of
all collected data. -/
def all (results : List (Res T E)) : Res (List T) E :=
  allGo [] results

/-- Free function Result.unwrap: delegates to the unwrap instance
method of the supplied result. -/
def unwrap (stringify : E → String) (result : Res T E) : Except String T :=
  result.unwrap stringify

/-- Free function Result.expect: delegates to the expect instance
method of the supplied result. -/
def expect (stringify : E → String) (result : Res T E) (message : String) :
    Except String T :=
  result.expect stringify message

/-- Loop body of Result.collectErrors: pushes the error of each err
element at the end of the errors accumulator, skipping ok elements. -/
def collectErrorsGo (errors : List E) : List (Res T E) → List E
  | [] => errors
  | result :: rest =>
    match result with
    | .err error => collectErrorsGo (errors ++ [error]) rest
    | .ok _ => collectErrorsGo errors rest

/-- Free function Result.collectErrors: iterates the whole array with
an initially empty errors accumulator and returns it. -/
def collectErrors (results : List (Res T E)) : List E :=
  collectErrorsGo [] results

/-- Loop body of Result.partition: pushes the data of each ok element
at the end of the successes accumulator and the error of each err
element at the end of the failures accumulator. -/
def partitionGo (successes : List T) (failures : List E) :
    List (Res T E) → List T × List E
  | [] => (successes, failures)
  | result :: rest =>
    match result with
    | .ok data => partitionGo (successes ++ [data]) failures rest
    | .err error => partitionGo successes (failures ++ [error]) rest

/-- Free function Result.partition: iterates the whole array with two
initially empty accumulators and returns the pair of successes and
failures. -/
def partition (results : List (Res T E)) : List T × List E :=
  partitionGo [] [] results

/-- Free function Result.isOk: delegates to the isOk instance method of
the supplied result. -/
def isOk (result : Res T E) : Bool :=
  result.isOk

/-- Free function Result.isErr: delegates to the isErr instance method
of the supplied result. -/
def isErr (result : Res T E) : Bool :=
  result.isErr

end Result

/-- Projection of the ok side of a Result, used to state order
preservation of the aggregation utilities. -/
def okData {T E : Type} : Res T E → Option T
  | .ok data => some data
  | .err _ => none

/-- Projection of the err side of a Result, used to state order
preservation of the aggregation utilities. -/
def errData {T E : Type} : Res T E → Option E
  | .ok _ => none
  | .err error => some error

section Lemmas

variable {T E : Type}

lemma allGo_map_ok (xs : List T) (acc : List T) :
    Result.allGo (E := E) acc (xs.map Res.ok) = .ok (acc ++ xs) := by
  induction xs generalizing acc with
  | nil => simp [Result.allGo]
  | cons x xs ih => simp [Result.allGo, ih]

lemma allGo_first_err (xs : List T) (acc : List T) (e : E)
    (rest : List (Res T E)) :
    Result.allGo acc (xs.map Res.ok ++ .err e :: rest) = .err e := by
  induction xs generalizing acc with
  | nil => simp [Result.allGo]
  | cons x xs ih => simp [Result.allGo, ih]

lemma collectErrorsGo_spec (rs : List (Res T E)) (acc : List E) :
    Result.collectErrorsGo acc rs = acc ++ rs.filterMap errData := by
  induction rs generalizing acc with
  | nil => simp [Result.collectErrorsGo]
  | cons r rs ih =>
    cases r with
    | ok d => simp [Result.collectErrorsGo, ih, errData]
    | err e => simp [Result.collectErrorsGo, ih, errData]

lemma partitionGo_spec (rs : List (Res T E)) (accS : List T) (accF : List E) :
    Result.partitionGo accS accF rs =
      (accS ++ rs.filterMap okData, accF ++ rs.filterMap errData) := by
  induction rs generalizing accS accF with
  | nil => simp [Result.partitionGo]
  | cons r rs ih =>
    cases r with
    | ok d => simp [Result.partitionGo, ih, okData, errData]
    | err e => simp [Result.partitionGo, ih, okData, errData]

lemma filterMap_length_sum (rs : List (Res T E)) :
    (rs.filterMap okData).length + (rs.filterMap errData).length = rs.length := by
  induction rs with
  | nil => simp
  | cons r rs ih =>
    cases r with
    | ok d => simp [okData, errData, ih]; omega
    | err e => simp [okData, errData, ih]; omega

end Lemmas

/-- C1: Result.all of an array whose elements are all ok returns ok of
the payloads in original order (the empty array giving ok of the empty
array), and whenever the array is a block of ok elements followed by an
err and an arbitrary tail, Result.all returns that first err with its
error unmodified, independent of the tail, so no element after the
first err influences the outcome. -/
theorem result_all_spec :
    (∀ (T E : Type), Result.all ([] : List (Res T E)) = .ok []) ∧
    (∀ (T E : Type) (xs : List T),
      Result.all (xs.map (Res.ok : T → Res T E)) = .ok xs) ∧
    (∀ (T E : Type) (xs : List T) (e : E) (rest : List (Res T E)),
      Result.all (xs.map Res.ok ++ .err e :: rest) = .err e) := by
  refine ⟨fun T E => rfl, fun T E xs => ?_, fun T E xs e rest => ?_⟩
  · simpa using allGo_map_ok xs []
  · simpa using allGo_first_err xs [] e rest

/-- C2: unwrap and expect on an ok return the payload and do not throw;
on an err they throw, unwrap with the fixed literal followed by the
rendering of the error and expect with the supplied message, a colon
and a space, then the rendering of the error. -/
theorem unwrap_expect_spec :
    ∀ (T E : Type) (stringify : E → String) (x : T) (e : E) (m : String),
      (Res.ok x : Res T E).unwrap stringify = .ok x ∧
      (Res.ok x : Res T E).expect stringify m = .ok x ∧
      (Res.err e : Res T E).unwrap stringify =
        .error ("Called unwrap on an Err value: " ++ stringify e) ∧
      (Res.err e : Res T E).expect stringify m =
        .error (m ++ ": " ++ stringify e) :=
  fun _ _ _ _ _ _ => ⟨rfl, rfl, rfl, rfl⟩

/-- C3: map and andThen on an err yield the same failure with the error
unchanged for every callback, including under the may-throw callback
semantics where an arbitrary throwing callback is permitted and no
throw occurs; symmetrically mapErr on an ok yields the same success
with the payload unchanged for every callback. Independence from the
universally quantified callback is exactly the guarantee that the
callback is never invoked. -/
theorem noop_branch_spec :
    ∀ (T E U F : Type) (x : T) (e : E)
      (f : T → U) (fT : T → Except String U)
      (g : T → Res U E) (gT : T → Except String (Res U E))
      (h : E → F) (hT : E → Except String F),
      (Res.err e : Res T E).map f = .err e ∧
      (Res.err e : Res T E).mapT fT = .ok (.err e) ∧
      (Res.err e : Res T E).andThen g = .err e ∧
      (Res.err e : Res T E).andThenT gT = .ok (.err e) ∧
      (Res.ok x : Res T E).mapErr h = .ok x ∧
      (Res.ok x : Res T E).mapErrT hT = .ok (.ok x) :=
  fun _ _ _ _ _ _ _ _ _ _ _ _ => ⟨rfl, rfl, rfl, rfl, rfl, rfl⟩

/-- C4: Result.try returns ok of the value of a normally returning
thunk and err of the thrown value of a throwing thunk, its return type
already excluding propagation of the throw; Result.tryAsync maps a
fulfilling thunk to a promise fulfilled with ok of the value, a
rejecting thunk to a promise fulfilled with err of the reason, and for
every thunk whatsoever its resulting promise fulfills. -/
theorem try_tryAsync_spec :
    ∀ (T ε : Type) (v : T) (e : ε) (fn : Unit → Except ε (Except ε T)),
      Result.tryCatch (fun _ => (Except.ok v : Except ε T)) = .ok v ∧
      Result.tryCatch (fun _ => (Except.error e : Except ε T)) = .err e ∧
      Result.tryAsync (fun _ =>
        (Except.ok (Except.ok v) : Except ε (Except ε T))) = .ok (.ok v) ∧
      Result.tryAsync (fun _ =>
        (Except.ok (Except.error e) : Except ε (Except ε T))) = .ok (.err e) ∧
      ∃ r, Result.tryAsync fn = Except.ok r := by
  intro T ε v e fn
  refine ⟨rfl, rfl, rfl, rfl, ?_⟩
  unfold Result.tryAsync
  match fn () with
  | .error e₀ => exact ⟨.err e₀, rfl⟩
  | .ok (.ok v₀) => exact ⟨.ok v₀, rfl⟩
  | .ok (.error e₀) => exact ⟨.err e₀, rfl⟩

/-- C5: every free function of the Result namespace in the claim (map,
mapErr, andThen, unwrapOr, unwrap, expect, isOk, isErr) returns the
same outcome as the corresponding instance operation on the same
Result, for every Result and every callback or argument, including the
throwing behaviour of unwrap and expect. -/
theorem free_functions_delegate :
    ∀ (T E U F : Type) (r : Res T E) (f : T → U) (g : E → F)
      (h : T → Res U E) (d : T) (stringify : E → String) (m : String),
      Result.map r f = r.map f ∧
      Result.mapErr r g = r.mapErr g ∧
      Result.andThen r h = r.andThen h ∧
      Result.unwrapOr r d = r.unwrapOr d ∧
      Result.unwrap stringify r = r.unwrap stringify ∧
      Result.expect stringify r m = r.expect stringify m ∧
      Result.isOk r = r.isOk ∧
      Result.isErr r = r.isErr := by
  intro T E U F r f g h d stringify m
  cases r <;> exact ⟨rfl, rfl, rfl, rfl, rfl, rfl, rfl, rfl⟩

/-- C6: Result.partition returns the pair of the payloads of the ok
elements in original relative order and the errors of the err elements
in original relative order, and the lengths of the two outputs sum to
the length of the input. -/
theorem partition_spec :
    ∀ (T E : Type) (rs : List (Res T E)),
      Result.partition rs = (rs.filterMap okData, rs.filterMap errData) ∧
      (Result.partition rs).1.length + (Result.partition rs).2.length =
        rs.length := by
  intro T E rs
  have h := partitionGo_spec rs [] []
  simp only [List.nil_append] at h
  refine ⟨by simpa [Result.partition] using h, ?_⟩
  simp only [Result.partition, h]
  exact filterMap_length_sum rs

/-- C7: Result.collectErrors returns exactly the errors of the err
elements in original relative order, the ok elements contributing
nothing, and returns the empty array on an array with no err
element. -/
theorem collectErrors_spec :
    ∀ (T E : Type) (rs : List (Res T E)) (xs : List T),
      Result.collectErrors rs = rs.filterMap errData ∧
      Result.collectErrors (xs.map (Res.ok : T → Res T E)) = [] := by
  intro T E rs xs
  constructor
  · simpa [Result.collectErrors] using collectErrorsGo_spec rs []
  · have h := collectErrorsGo_spec (T := T) (E := E) (xs.map Res.ok) []
    simp only [List.nil_append] at h
    simp only [Result.collectErrors, h]
    induction xs with
    | nil => rfl
    | cons x xs ih => simp [errData, ih]

/-- C8: map satisfies the functor laws: mapping the identity callback
over any Result returns the same Result, and mapping f then g over an
ok equals mapping the composition over that ok. -/
theorem map_functor_laws :
    ∀ (T E U V : Type) (r : Res T E) (x : T) (f : T → U) (g : U → V),
      r.map (fun v => v) = r ∧
      ((Res.ok x : Res T E).map f).map g =
        (Res.ok x : Res T E).map (fun v => g (f v)) := by
  intro T E U V r x f g
  exact ⟨by cases r <;> rfl, rfl⟩

/-- C9 counterexample: the claim that every transformation produces a
new Result value distinct from the input fails on the no-op branches;
at the concrete input err 0 with the successor callback, map returns a
value equal to its input (the source returns this, the input itself),
so the output is not distinct from the input. -/
theorem noop_branch_not_distinct :
    (Res.err 0 : Res Nat Nat).map (fun x => x + 1) = Res.err 0 := rfl

/-- C9 amended: no operation mutates a constructed Result (every
operation here is a pure function of its input); map on an ok and
mapErr on an err build a new Result from the callback output, while the
no-op branches (map and andThen on an err, mapErr on an ok) return the
input Result value unchanged rather than a distinct new value. -/
theorem immutable_value_semantics :
    ∀ (T E U F : Type) (x : T) (e : E) (f : T → U) (g : E → F)
      (h : T → Res U E),
      (Res.ok x : Res T E).map f = Res.ok (f x) ∧
      (Res.err e : Res T E).mapErr g = Res.err (g e) ∧
      (Res.err e : Res T E).map f = Res.err e ∧
      (Res.ok x : Res T E).mapErr g = Res.ok x ∧
      (Res.err e : Res T E).andThen h = Res.err e :=
  fun _ _ _ _ _ _ _ _ _ => ⟨rfl, rfl, rfl, rfl, rfl⟩

/-- C10: when the thunk given to Result.tryAsync throws synchronously
instead of returning a promise, the returned promise still fulfills
(Except.ok) with err of the thrown value, exactly as for an
asynchronous rejection. -/
theorem tryAsync_sync_throw :
    ∀ (T ε : Type) (e : ε),
      Result.tryAsync (fun _ => (Except.error e : Except ε (Except ε T))) =
        Except.ok (Res.err e) :=
  fun _ _ _ => rfl
